import Mathlib

/-!
Verification of the peekit enrichment pipeline (`src/enrichment/`) against its
natural-language specification.

The development shallowly embeds the Python sources:

* `PyValue` / `PyDict` model Python values and `dict`s (association lists in
  insertion order, with first-occurrence lookup and in-place replacement on
  assignment, matching CPython's unique-key dictionaries).
* `normalize_record` embeds `enrichment/providers.py`.
* `EngagementScorer.*` embeds `enrichment/modules/engagement_scorer.py`,
  with CPython floats idealised as real numbers and `round(x, n)` modelled
  as exact round-half-to-even (`pyRound`).
* `SentimentAnalyzer.analyze`, `EntityExtractor.extract`,
  `TopicClassifier.classify`, `ContentModerator.moderate` embed the four
  semantic modules; the external structured-extraction HTTP call is a
  parameter of type `String → Except String PyDict` (error = the call or
  response parsing raised), and each embedded function additionally reports
  whether the external service was contacted.
* `enrich_record` embeds `EnrichmentPipeline._enrich_record` from
  `enrichment/main.py`, `pipeline_run` embeds `EnrichmentPipeline.run`.
* `formatSingleValue`, `merge_enriched_record`,
  `merge_enriched_records_batch` embed `enrichment/common/athena_writer.py`
  (an `Option`/`Except` result models a raised exception).
* `fetch_unenriched_query` embeds the query string built by
  `AthenaReader.fetch_unenriched`, and `evalAntiJoinQuery` gives the
  standard SQL meaning of that query shape.
-/

/-- A Python runtime value, as used by the enrichment pipeline records. -/
inductive PyValue where
  /-- Python `None`. -/
  | none : PyValue
  /-- A Python `str`. -/
  | str (s : String) : PyValue
  /-- A Python `int`. -/
  | int (n : ℤ) : PyValue
  /-- A Python `float`, idealised as an exact rational. -/
  | float (q : ℚ) : PyValue
  /-- A Python `bool` (a distinct constructor: `isinstance(b, bool)`). -/
  | bool (b : Bool) : PyValue
  /-- A `datetime.datetime` (second precision suffices for the writer). -/
  | datetime (y mo d h mi s : ℕ) : PyValue
  /-- A `datetime.date`. -/
  | date (y mo d : ℕ) : PyValue
  /-- A Python `list`. -/
  | list (xs : List PyValue) : PyValue
  /-- A Python `dict` with string keys, in insertion order. -/
  | dict (entries : List (String × PyValue)) : PyValue

/-- A Python `dict` with string keys (insertion-ordered association list,
keys unique). -/
abbrev PyDict := List (String × PyValue)

/-- `d[k]` lookup: first (unique) occurrence of the key. -/
def dictGet : PyDict → String → Option PyValue
  | [], _ => Option.none
  | (k', v') :: rest, k => if k' = k then some v' else dictGet rest k

/-- Python `d.get(k, default)`. -/
def pyGetD (d : PyDict) (k : String) (default : PyValue) : PyValue :=
  (dictGet d k).getD default

/-- `d[k] = v`: replace the existing entry in place, else append. -/
def dictSet : PyDict → String → PyValue → PyDict
  | [], k, v => [(k, v)]
  | (k', v') :: rest, k, v =>
      if k' = k then (k, v) :: rest else (k', v') :: dictSet rest k v

/-- Python `d.update(kvs)`: assign each pair in order. -/
def dictUpdate (d : PyDict) (kvs : PyDict) : PyDict :=
  kvs.foldl (fun acc kv => dictSet acc kv.1 kv.2) d

/-- Remove the (unique) entry with the given key, if present. -/
def dictRemove : PyDict → String → PyDict
  | [], _ => []
  | (k', v') :: rest, k =>
      if k' = k then rest else (k', v') :: dictRemove rest k

/-- Python `d.pop(k, default)`: the popped value and the remaining dict. -/
def dictPop (d : PyDict) (k : String) (default : PyValue) :
    PyValue × PyDict :=
  (pyGetD d k default, dictRemove d k)

/-- Python truthiness of a value. -/
def pyTruthy : PyValue → Bool
  | .none => false
  | .str s => s != ""
  | .int n => n != 0
  | .float q => q != 0
  | .bool b => b
  | .datetime _ _ _ _ _ _ => true
  | .date _ _ _ => true
  | .list xs => !xs.isEmpty
  | .dict es => !es.isEmpty

/-- Python `a or b`. -/
def pyOr (a b : PyValue) : PyValue := if pyTruthy a then a else b

/-- Left-pad a numeral with zeros to the given width. -/
def padZero (w : ℕ) (n : ℕ) : String :=
  let s := toString n
  String.mk (List.replicate (w - s.length) '0') ++ s

/-- Idealised CPython `str(float)`: exact decimal rendering when the value
has a finite decimal expansion (as every IEEE double has). -/
def pyFloatStr (q : ℚ) : String :=
  match (List.range 18).find? (fun k => (q * (10 : ℚ) ^ k).den = 1) with
  | some k =>
      if k = 0 then toString q.num ++ ".0"
      else
        let m := (q * (10 : ℚ) ^ k).num
        let sign := if m < 0 then "-" else ""
        let a := m.natAbs
        sign ++ toString (a / 10 ^ k) ++ "." ++ padZero k (a % 10 ^ k)
  | Option.none => toString q

/-- Python `str(value)` for the value shapes the pipeline handles
(CPython float `repr` is idealised as an exact decimal rendering). -/
def pyStr : PyValue → String
  | .none => "None"
  | .str s => s
  | .int n => toString n
  | .float q => pyFloatStr q
  | .bool b => if b then "True" else "False"
  | .datetime y mo d h mi s =>
      padZero 4 y ++ "-" ++ padZero 2 mo ++ "-" ++ padZero 2 d ++ " " ++
        padZero 2 h ++ ":" ++ padZero 2 mi ++ ":" ++ padZero 2 s
  | .date y mo d =>
      padZero 4 y ++ "-" ++ padZero 2 mo ++ "-" ++ padZero 2 d
  | .list _ => "<list>"
  | .dict _ => "<dict>"

/-- `ProviderConfig` from `enrichment/providers.py`: immutable descriptor of
one source table.  `table`, `id_column` and `text_column` are required; every
other column is optional. -/
structure ProviderConfig where
  table : String
  id_column : String
  text_column : String
  author_column : Option String := Option.none
  likes_column : Option String := Option.none
  shares_column : Option String := Option.none
  comments_column : Option String := Option.none
  views_column : Option String := Option.none
  posted_at_column : Option String := Option.none
  keyword_column : Option String := Option.none
  region_column : Option String := Option.none
  url_column : Option String := Option.none
  deriving DecidableEq

/-- `normalize_record` from `enrichment/providers.py`: transform a raw source
row into the normalized record shape.  `_get` yields `None` for an absent
config column; each optional field degrades through Python `or` to its
default. -/
def normalize_record (raw : PyDict) (config : ProviderConfig) : PyDict :=
  let _get : Option String → PyValue := fun col =>
    match col with
    | Option.none => PyValue.none
    | some c => pyGetD raw c PyValue.none
  [("source_table", PyValue.str config.table),
   ("source_id", PyValue.str (pyStr (pyGetD raw config.id_column (.str "")))),
   ("text", pyOr (pyGetD raw "source_text" (.str "")) (.str "")),
   ("author", pyOr (_get config.author_column) (.str "")),
   ("likes", pyOr (_get config.likes_column) (.int 0)),
   ("retweets", pyOr (_get config.shares_column) (.int 0)),
   ("replies", pyOr (_get config.comments_column) (.int 0)),
   ("views", pyOr (_get config.views_column) (.int 0)),
   ("posted_at", _get config.posted_at_column),
   ("keyword", pyOr (_get config.keyword_column) (.str "")),
   ("region", pyOr (_get config.region_column) (.str "")),
   ("scraped_at", pyGetD raw "scraped_at" PyValue.none),
   ("source_url", pyOr (_get config.url_column) (.str ""))]

/-! ### EngagementScorer (`enrichment/modules/engagement_scorer.py`)

CPython floats are idealised as real numbers; `round(x, ndigits)` is CPython
round-half-to-even, modelled exactly on the reals by `pyRound`. -/

/-- Nearest integer with ties to even (the rounding CPython `round` applies
to the exact value of its float argument). -/
noncomputable def roundHalfEven (y : ℝ) : ℤ :=
  if Int.fract y = 1 / 2 then (if 2 ∣ ⌊y⌋ then ⌊y⌋ else ⌊y⌋ + 1)
  else round y

/-- Python `round(x, n)` on the idealised reals. -/
noncomputable def pyRound (n : ℕ) (x : ℝ) : ℝ :=
  (roundHalfEven (x * 10 ^ n) : ℤ) / 10 ^ n

/-- `EngagementScorer._calculate_time_adjusted_score`: score per hour since
posting.  The elapsed time (hours between `now` and `posted_at`) is passed as
a parameter, `Option.none` standing for an absent/unparseable `posted_at`. -/
noncomputable def EngagementScorer.calculate_time_adjusted_score
    (score : ℝ) (elapsedHours : Option ℝ) : ℝ :=
  match elapsedHours with
  | Option.none => 0
  | some elapsed => if elapsed ≤ 0 then 0 else score / elapsed

/-- `EngagementScorer._calculate_percentile_score`: logarithmic 0-100 scale,
`min(100, log10(score + 1) * 25)`, and `0` for non-positive scores. -/
noncomputable def EngagementScorer.calculate_percentile_score (score : ℝ) : ℝ :=
  if score ≤ 0 then 0
  else min 100 (Real.logb 10 (score + 1) * 25)

/-- `EngagementScorer._get_engagement_tier`: fixed inclusive lower-bound
thresholds on the percentile. -/
noncomputable def EngagementScorer.get_engagement_tier (percentile : ℝ) : String :=
  if 90 ≤ percentile then "Viral"
  else if 75 ≤ percentile then "High"
  else if 50 ≤ percentile then "Above Average"
  else if 25 ≤ percentile then "Average"
  else if 10 ≤ percentile then "Below Average"
  else "Low"

/-- The score bundle returned by `EngagementScorer.score`. -/
structure ScoreBundle where
  engagement_score : ℝ
  engagement_rate : ℝ
  virality_score : ℝ
  interaction_quality : ℝ
  time_adjusted_score : ℝ
  percentile_score : ℝ
  engagement_tier : String

/-- `EngagementScorer.score`: weighted sum plus derived rates, each rounded
(2 decimals for scores, 4 for rates). -/
noncomputable def EngagementScorer.score
    (likes retweets replies views : ℤ) (elapsedHours : Option ℝ) :
    ScoreBundle :=
  let engagement_score : ℝ :=
    (likes : ℝ) * 1.0 + (retweets : ℝ) * 3.0 + (replies : ℝ) * 2.0 +
      (views : ℝ) * 0.01
  let total_interactions : ℤ := likes + retweets + replies
  let engagement_rate : ℝ :=
    if 0 < views then (total_interactions : ℝ) / (views : ℝ) else 0.0
  let virality_score : ℝ :=
    if 0 < total_interactions then (retweets : ℝ) / (total_interactions : ℝ)
    else 0.0
  let meaningful_interactions : ℤ := replies + retweets
  let interaction_quality : ℝ :=
    if 0 < likes then (meaningful_interactions : ℝ) / (likes : ℝ) else 0.0
  let time_adjusted_score :=
    EngagementScorer.calculate_time_adjusted_score engagement_score elapsedHours
  let percentile_score :=
    EngagementScorer.calculate_percentile_score engagement_score
  { engagement_score := pyRound 2 engagement_score
    engagement_rate := pyRound 4 engagement_rate
    virality_score := pyRound 4 virality_score
    interaction_quality := pyRound 4 interaction_quality
    time_adjusted_score := pyRound 2 time_adjusted_score
    percentile_score := pyRound 2 percentile_score
    engagement_tier := EngagementScorer.get_engagement_tier percentile_score }

/-- Rank of a tier label in the fixed threshold table (higher = better). -/
def tierRank (tier : String) : ℕ :=
  if tier = "Viral" then 5
  else if tier = "High" then 4
  else if tier = "Above Average" then 3
  else if tier = "Average" then 2
  else if tier = "Below Average" then 1
  else 0

/-! ### Semantic enrichment modules (`enrichment/modules/*.py`)

Each module guards on blank text, then calls the external structured
extraction service (the `zai` parameter models `_call_zai_api`, whose
`Except.error` case covers a non-200 response, a network error, or a JSON
parsing failure).  The `Bool` in the result records whether the external
service was contacted.  Any exception from the call is caught inside the
module and converted to the module's own empty/safe bundle. -/

/-- Python `str.strip()` with no argument: drop leading and trailing
whitespace. -/
def pyStrip (s : String) : String :=
  String.mk (((s.data.dropWhile Char.isWhitespace).reverse.dropWhile
    Char.isWhitespace).reverse)

/-- Python `not text or not text.strip()` for a `str` argument. -/
def pyBlank (text : String) : Bool := (text == "") || (pyStrip text == "")

/-- `SentimentAnalyzer._empty_result`. -/
def SentimentAnalyzer.empty_result : PyDict :=
  [("sentiment_label", .str "neutral"),
   ("sentiment_score", .float 0),
   ("sentiment_emotions", .list []),
   ("sentiment_topics", .list [])]

/-- `SentimentAnalyzer._build_prompt`. -/
def SentimentAnalyzer.build_prompt (text : String) : String :=
  "Analyze the sentiment of the following tweet and extract:\n" ++
  "1. Overall sentiment (positive, negative, or neutral)\n" ++
  "2. Confidence score (0-1)\n" ++
  "3. Emotions detected (e.g., joy, anger, sadness, fear, surprise, disgust)\n" ++
  "4. Main topics or themes\n\nTweet: \"" ++ text ++
  "\"\n\nProvide a comprehensive sentiment analysis."

/-- `SentimentAnalyzer.analyze`: blank text short-circuits to the empty
result; an exception from the service call is caught and also yields the
empty result. -/
def SentimentAnalyzer.analyze (zai : String → Except String PyDict)
    (text : String) : PyDict × Bool :=
  if pyBlank text then (SentimentAnalyzer.empty_result, false)
  else
    match zai (SentimentAnalyzer.build_prompt text) with
    | .ok d => (d, true)
    | .error _ => (SentimentAnalyzer.empty_result, true)

/-- `EntityExtractor._empty_result`. -/
def EntityExtractor.empty_result : PyDict :=
  [("people", .list []),
   ("organizations", .list []),
   ("locations", .list []),
   ("products", .list []),
   ("hashtags", .list []),
   ("mentions", .list [])]

/-- `EntityExtractor._build_prompt`. -/
def EntityExtractor.build_prompt (text : String) : String :=
  "Extract all entities from the following tweet:\n\nTweet: \"" ++ text ++
  "\"\n\nIdentify and extract:\n" ++
  "1. People - Names of individuals mentioned\n" ++
  "2. Organizations - Companies, brands, institutions\n" ++
  "3. Locations - Cities, countries, places\n" ++
  "4. Products - Products or services mentioned\n" ++
  "5. Hashtags - All hashtags used\n" ++
  "6. Mentions - User mentions (without the @ symbol)\n\n" ++
  "Be thorough and accurate. Only extract entities that are clearly present."

/-- `EntityExtractor.extract`. -/
def EntityExtractor.extract (zai : String → Except String PyDict)
    (text : String) : PyDict × Bool :=
  if pyBlank text then (EntityExtractor.empty_result, false)
  else
    match zai (EntityExtractor.build_prompt text) with
    | .ok d => (d, true)
    | .error _ => (EntityExtractor.empty_result, true)

/-- `TopicClassifier._empty_result`. -/
def TopicClassifier.empty_result : PyDict :=
  [("primary_category", .str "Other"),
   ("sub_categories", .list []),
   ("industry", .str "Unknown"),
   ("keywords", .list []),
   ("is_commercial", .bool false),
   ("is_news", .bool false)]

/-- `TopicClassifier._build_prompt` (the author adds context only when
truthy). -/
def TopicClassifier.build_prompt (text author : String) : String :=
  let author_context := if author != "" then "\nAuthor: " ++ author else ""
  "Classify the following tweet into topics and categories:\n\nTweet: \"" ++
  text ++ "\"" ++ author_context ++
  "\n\nAnalyze and determine:\n" ++
  "1. Primary Category - Choose ONE from: Technology, Business, " ++
  "Entertainment, Sports, Politics, Health, Science, Lifestyle, " ++
  "Education, Other\n" ++
  "2. Sub-categories - Specific topics within the primary category\n" ++
  "3. Industry - Relevant industry or business sector\n" ++
  "4. Keywords - Key terms that define the topic\n" ++
  "5. Is Commercial - Whether this is promotional/advertising content\n" ++
  "6. Is News - Whether this is news or current events\n\n" ++
  "Be specific and accurate in classification."

/-- `TopicClassifier.classify`. -/
def TopicClassifier.classify (zai : String → Except String PyDict)
    (text author : String) : PyDict × Bool :=
  if pyBlank text then (TopicClassifier.empty_result, false)
  else
    match zai (TopicClassifier.build_prompt text author) with
    | .ok d => (d, true)
    | .error _ => (TopicClassifier.empty_result, true)

/-- `ContentModerator._safe_result`. -/
def ContentModerator.safe_result : PyDict :=
  [("is_safe", .bool true),
   ("risk_level", .str "safe"),
   ("flags", .list []),
   ("content_warnings", .list []),
   ("recommended_action", .str "none"),
   ("confidence_score", .float 1)]

/-- `ContentModerator._build_prompt`. -/
def ContentModerator.build_prompt (text : String) : String :=
  "Analyze the following tweet for content safety and moderation:\n\n" ++
  "Tweet: \"" ++ text ++ "\"\n\nEvaluate for:\n" ++
  "1. Hate Speech - Targeting protected groups based on race, religion, " ++
  "gender, etc.\n" ++
  "2. Violence - Graphic violence, threats, or incitement\n" ++
  "3. Adult Content - NSFW, explicit sexual content\n" ++
  "4. Spam - Repetitive, irrelevant, or promotional spam\n" ++
  "5. Misinformation - False or misleading information\n" ++
  "6. Profanity - Excessive profanity or vulgar language\n" ++
  "7. Harassment - Bullying, harassment, or personal attacks\n\nDetermine:\n" ++
  "- Is Safe: Whether content is safe for general audiences\n" ++
  "- Risk Level: safe, low, medium, high, or critical\n" ++
  "- Flags: List of specific issues found\n" ++
  "- Content Warnings: Specific warnings for moderators\n" ++
  "- Recommended Action: none, flag (for review), review (needs manual " ++
  "check), remove (immediate removal)\n" ++
  "- Confidence Score: How confident you are in this assessment (0-1)\n\n" ++
  "Be objective and consistent in moderation decisions."

/-- `ContentModerator.moderate`. -/
def ContentModerator.moderate (zai : String → Except String PyDict)
    (text : String) : PyDict × Bool :=
  if pyBlank text then (ContentModerator.safe_result, false)
  else
    match zai (ContentModerator.build_prompt text) with
    | .ok d => (d, true)
    | .error _ => (ContentModerator.safe_result, true)

/-! ### EnrichmentPipeline._enrich_record (`enrichment/main.py`)

The five stage computations are parameters: each semantic stage is the
corresponding module call (which itself catches collaborator errors), and
`Except.error` models the module call itself raising — the branch the
orchestrator's own `try/except` guards with the fallback bundles written in
`main.py`.  `now`/`today` stand for `datetime.now(timezone.utc)` and its
date. -/

/-- Which modules are enabled (`self.modules_enabled`). -/
structure ModFlags where
  sentiment : Bool
  entity : Bool
  topic : Bool
  engagement : Bool
  moderation : Bool

/-- All modules enabled (the default configuration). -/
def allFlags : ModFlags := ⟨true, true, true, true, true⟩

/-- The sentiment fallback bundle written in `_enrich_record`'s
`except` branch. -/
def EnrichmentPipeline.sentiment_fallback : PyDict :=
  [("sentiment_label", .str "unknown"),
   ("sentiment_score", .float 0),
   ("sentiment_emotions", .list []),
   ("sentiment_topics", .list [])]

/-- The entity fallback bundle in `_enrich_record`. -/
def EnrichmentPipeline.entity_fallback : PyDict :=
  [("people", .list []),
   ("organizations", .list []),
   ("locations", .list []),
   ("products", .list []),
   ("hashtags", .list []),
   ("mentions", .list [])]

/-- The topic fallback bundle in `_enrich_record`. -/
def EnrichmentPipeline.topic_fallback : PyDict :=
  [("primary_category", .str "Other"),
   ("sub_categories", .list []),
   ("industry", .str "Unknown"),
   ("keywords", .list []),
   ("is_commercial", .bool false),
   ("is_news", .bool false)]

/-- The engagement fallback bundle in `_enrich_record`. -/
def EnrichmentPipeline.engagement_fallback : PyDict :=
  [("engagement_score", .float 0),
   ("engagement_rate", .float 0),
   ("virality_score", .float 0),
   ("interaction_quality", .float 0),
   ("time_adjusted_score", .float 0),
   ("percentile_score", .float 0),
   ("engagement_tier", .str "Low")]

/-- The moderation fallback bundle in `_enrich_record`. -/
def EnrichmentPipeline.moderation_fallback : PyDict :=
  [("is_safe", .bool true),
   ("risk_level", .str "safe"),
   ("flags", .list []),
   ("content_warnings", .list []),
   ("recommended_action", .str "none"),
   ("confidence_score", .float 1)]

/-- The dict a `try: ...; enriched.update(stage_result) except: 
enriched.update(fallback)` block merges. -/
def mergeStage (res : Except String PyDict) (fallback : PyDict) : PyDict :=
  match res with
  | .ok d => d
  | .error _ => fallback

/-- `EnrichmentPipeline._enrich_record`: copy the record, stamp metadata,
merge each enabled stage's result (or its fallback bundle if the stage
raised), then rename the normalized keys to the storage schema. -/
def EnrichmentPipeline.enrich_record (flags : ModFlags) (now today : PyValue)
    (record : PyDict)
    (sentiment entity topic engagement moderation : Except String PyDict) :
    PyDict :=
  let enriched := record
  let enriched := dictSet enriched "enriched_at" now
  let enriched := dictSet enriched "enrichment_version" (.str "1.0.0")
  let enriched := dictSet enriched "date" today
  let enriched :=
    if flags.sentiment then
      dictUpdate enriched (mergeStage sentiment EnrichmentPipeline.sentiment_fallback)
    else enriched
  let enriched :=
    if flags.entity then
      dictUpdate enriched (mergeStage entity EnrichmentPipeline.entity_fallback)
    else enriched
  let enriched :=
    if flags.topic then
      dictUpdate enriched (mergeStage topic EnrichmentPipeline.topic_fallback)
    else enriched
  let enriched :=
    if flags.engagement then
      dictUpdate enriched (mergeStage engagement EnrichmentPipeline.engagement_fallback)
    else enriched
  let enriched :=
    if flags.moderation then
      dictUpdate enriched (mergeStage moderation EnrichmentPipeline.moderation_fallback)
    else enriched
  let p1 := dictPop enriched "text" (.str "")
  let enriched := dictSet p1.2 "source_text" p1.1
  let p2 := dictPop enriched "author" (.str "")
  let enriched := dictSet p2.2 "source_author" p2.1
  let p3 := dictPop enriched "retweets" (.int 0)
  let enriched := dictSet p3.2 "shares" p3.1
  let p4 := dictPop enriched "replies" (.int 0)
  let enriched := dictSet p4.2 "comments" p4.1
  enriched

/-- The `text` the orchestrator hands to the semantic stages
(`record.get('text', '')`; on normalized records this is always a `str`). -/
def recordTextStr (record : PyDict) : String :=
  match pyGetD record "text" (.str "") with
  | .str s => s
  | _ => ""

/-- The four keys owned by the sentiment stage. -/
def sentimentKeys : List String :=
  ["sentiment_label", "sentiment_score", "sentiment_emotions", "sentiment_topics"]

/-! ### Dictionary laws used to reason about `_enrich_record` -/

/-- Lookup of the most recent binding (last occurrence) in a key-value
list; `dictUpdate` gives later assignments precedence. -/
def lastGet (d : PyDict) (k : String) : Option PyValue := dictGet d.reverse k

/-- Two dicts with the same key sequence whose values may differ only at
keys in `S`. -/
def EqExcept (S : List String) (d1 d2 : PyDict) : Prop :=
  List.Forall₂ (fun p q => p.1 = q.1 ∧ (p.1 ∉ S → p.2 = q.2)) d1 d2

/-- Two stage-result dicts with the same key sequence, allowed to differ
only at keys of `S` (the stage's own field set). -/
def StageCompat (S : List String) (kvs1 kvs2 : PyDict) : Prop :=
  List.Forall₂ (fun p q => p.1 = q.1 ∧ (p.1 ∈ S ∨ p.2 = q.2)) kvs1 kvs2

/-! ### AthenaWriter (`enrichment/common/athena_writer.py`)

`_format_single_value` dispatches on `isinstance` checks in source order;
the distinct `PyValue` constructors already encode the subclass pitfalls the
order guards against (`datetime` before `date`, `bool` before the generic
fallback).  `json.dumps` raises `TypeError` on objects it cannot serialize
(such as `datetime`/`date` values nested in a dict); a raised exception is
modelled as `Option.none`. -/

/-- JSON string escaping as `json.dumps` performs it (the characters
relevant to this pipeline). -/
def jsonEscChar (c : Char) : String :=
  if c = '"' then "\\\""
  else if c = '\\' then "\\\\"
  else if c = '\n' then "\\n"
  else if c = '\t' then "\\t"
  else if c = '\r' then "\\r"
  else String.singleton c

/-- Python `sep.join(items)`. -/
def sepJoin (sep : String) : List String → String
  | [] => ""
  | [x] => x
  | x :: xs => x ++ sep ++ sepJoin sep xs

/-- Escape a whole string for a JSON string literal. -/
def jsonStrEscape (s : String) : String :=
  String.join (s.data.map jsonEscChar)

mutual

/-- Python `json.dumps` (compact model): `Option.none` models the
`TypeError` raised on unsupported objects such as `datetime`/`date`. -/
def jsonDumps : PyValue → Option String
  | .none => some "null"
  | .bool b => some (if b then "true" else "false")
  | .int n => some (toString n)
  | .float q => some (pyFloatStr q)
  | .str s => some ("\"" ++ jsonStrEscape s ++ "\"")
  | .datetime _ _ _ _ _ _ => Option.none
  | .date _ _ _ => Option.none
  | .list xs =>
      (jsonDumpsList xs).map
        (fun items => "[" ++ sepJoin ", " items ++ "]")
  | .dict es =>
      (jsonDumpsEntries es).map
        (fun items => "\x7b" ++ sepJoin ", " items ++ "\x7d")

/-- Serialize the elements of a JSON array, failing if any element fails. -/
def jsonDumpsList : List PyValue → Option (List String)
  | [] => some []
  | v :: vs =>
      match jsonDumps v, jsonDumpsList vs with
      | some s, some rest => some (s :: rest)
      | _, _ => Option.none

/-- Serialize the entries of a JSON object, failing if any value fails. -/
def jsonDumpsEntries : List (String × PyValue) → Option (List String)
  | [] => some []
  | (k, v) :: rest =>
      match jsonDumps v, jsonDumpsEntries rest with
      | some s, some r =>
          some (("\"" ++ jsonStrEscape k ++ "\": " ++ s) :: r)
      | _, _ => Option.none

end

mutual

/-- `AthenaWriter._format_single_value`: serialize one value to its SQL
literal.  `Option.none` models a raised exception (only reachable through
`json.dumps` on a dict with unserializable nested values). -/
def formatSingleValue : PyValue → Option String
  | .none => some "NULL"
  | .str s => some ("'" ++ s.replace "'" "''" ++ "'")
  | .datetime y mo d h mi s =>
      some ("TIMESTAMP '" ++ padZero 4 y ++ "-" ++ padZero 2 mo ++ "-" ++
        padZero 2 d ++ " " ++ padZero 2 h ++ ":" ++ padZero 2 mi ++ ":" ++
        padZero 2 s ++ "'")
  | .date y mo d =>
      some ("DATE '" ++ padZero 4 y ++ "-" ++ padZero 2 mo ++ "-" ++
        padZero 2 d ++ "'")
  | .bool b => some (if b then "true" else "false")
  | .list xs =>
      (formatValueList xs).map
        (fun items => "ARRAY[" ++ sepJoin ", " items ++ "]")
  | .dict es =>
      (jsonDumps (.dict es)).map
        (fun js => "'" ++ js.replace "'" "''" ++ "'")
  | .int n => some (toString n)
  | .float q => some (pyFloatStr q)

/-- Recursively format the elements of a list value. -/
def formatValueList : List PyValue → Option (List String)
  | [] => some []
  | v :: vs =>
      match formatSingleValue v, formatValueList vs with
      | some s, some rest => some (s :: rest)
      | _, _ => Option.none

end

/-- Terminal states the `_wait_for_query` poll loop can reach for a
submitted query. -/
inductive PollOutcome where
  | succeeded : PollOutcome
  | failed (reason : String) : PollOutcome
  | cancelled (reason : String) : PollOutcome
  | timedOut : PollOutcome

/-- `AthenaWriter.execute_query`: submit the query (`submit` is the
`start_query_execution` call, `.ok` carrying the execution id, `.error` a
raised submission error) and, only when `wait` is true, block on
`_wait_for_query`, whose non-success terminal states raise. -/
def execute_query (submit : Except String String) (wait : Bool)
    (poll : PollOutcome) : Except String String :=
  match submit with
  | .error e => .error e
  | .ok qid =>
      if wait then
        match poll with
        | .succeeded => .ok qid
        | .failed reason => .error ("Query " ++ qid ++ " FAILED: " ++ reason)
        | .cancelled reason =>
            .error ("Query " ++ qid ++ " CANCELLED: " ++ reason)
        | .timedOut => .error ("Query " ++ qid ++ " exceeded max wait time")
      else .ok qid

/-- `AthenaWriter.merge_enriched_record`: submit the MERGE with
`wait=False`; a raised submission error is re-raised to the caller. -/
def merge_enriched_record (submit : Except String String)
    (poll : PollOutcome) : Except String String :=
  execute_query submit false poll

/-- One record of a batch write: its identifying key plus the outcome of
its MERGE submission and of the engine-side execution. -/
structure MergeAttempt where
  id : String
  submit : Except String String
  poll : PollOutcome

/-- Observable per-record events of `merge_enriched_records_batch`. -/
inductive MergeEvent where
  | submitted (id : String) : MergeEvent
  | errorLogged (id : String) : MergeEvent
  deriving DecidableEq

/-- The event a single loop iteration of the batch writer produces:
the inner `try/except` catches a raised merge and logs it. -/
def merge_record_event (a : MergeAttempt) : MergeEvent :=
  match merge_enriched_record a.submit a.poll with
  | .ok _ => .submitted a.id
  | .error _ => .errorLogged a.id

/-- `range(0, len(l), bs)` chunking (`bs = 0` would raise in Python; the
batch theorems assume `0 < bs`). -/
def chunkList {α : Type} (bs : ℕ) : List α → List (List α)
  | [] => []
  | x :: xs =>
      if bs = 0 then [] else (x :: xs).take bs :: chunkList bs ((x :: xs).drop bs)
  termination_by l => l.length
  decreasing_by simp; omega

/-- `AthenaWriter.merge_enriched_records_batch`: chunk the records, merge
each record of each chunk under a per-record `try/except`, and return
`None` — the only observable output is the event log. -/
def merge_enriched_records_batch (records : List MergeAttempt)
    (batch_size : ℕ) : Unit × List MergeEvent :=
  ((),
   ((chunkList batch_size records).map
     (fun batch => batch.map merge_record_event)).flatten)

/-! ### EnrichmentPipeline.run (`enrichment/main.py`)

`run` provisions the results table (aborting the process with status 1 via
`sys.exit(1)` if that raises), then loops over the configured providers:
a raised fetch skips the provider (`continue`), an empty fetch skips it,
a raised batch write is logged and skipped; the loop then falls through to
a normal return (process exit status 0).  Fetching, normalizing and
enriching are summarised by the fetched record list; the per-provider
`Bool` tells whether the batch write succeeded. -/

/-- How the pipeline process run ends. -/
inductive RunResult where
  | exited (code : ℕ) : RunResult
  | completed (total_enriched : ℕ) : RunResult
  deriving DecidableEq

/-- Process exit status of a run (normal completion exits 0). -/
def exitCodeOf : RunResult → ℕ
  | .exited code => code
  | .completed _ => 0

/-- `EnrichmentPipeline.run`. -/
def pipeline_run (provision : Except String Unit)
    (providers : List (Except String (List PyDict) × Bool)) : RunResult :=
  match provision with
  | .error _ => .exited 1
  | .ok _ =>
      .completed (providers.foldl
        (fun total pr =>
          match pr.1 with
          | .error _ => total
          | .ok recs =>
              if recs.isEmpty then total
              else if pr.2 then total + recs.length else total)
        0)

/-! ### AthenaReader.fetch_unenriched (`enrichment/common/athena_reader.py`)

The method builds one SQL string.  `AntiJoinQuery` records the parts of
that string that vary with the provider config, `renderAntiJoinQuery`
reproduces the Python f-string template exactly, and `evalAntiJoinQuery`
gives the query shape its standard SQL meaning over abstract table
contents (LEFT JOIN, `IS NULL` filters, `ORDER BY ... DESC`, `LIMIT`). -/

/-- The `SELECT` column list built by `fetch_unenriched` (optional config
columns are appended in source order). -/
def select_cols (config : ProviderConfig) : List String :=
  let opt : Option String → List String := fun c =>
    match c with
    | Option.none => []
    | some col => ["src." ++ col]
  ["src." ++ config.id_column, config.text_column ++ " AS source_text"] ++
    opt config.author_column ++ opt config.likes_column ++
    opt config.shares_column ++ opt config.comments_column ++
    opt config.views_column ++ opt config.posted_at_column ++
    opt config.keyword_column ++ opt config.region_column ++
    opt config.url_column ++ ["src.scraped_at"]

/-- The provider-dependent parts of the discovery query. -/
structure AntiJoinQuery where
  selectCols : List String
  database : String
  srcTable : String
  /-- the join condition compares `enr.source_table` to this string literal -/
  onTableLiteral : String
  /-- the join condition compares `enr.source_id` to `CAST(src.<this> AS VARCHAR)` -/
  idColumn : String
  /-- the `WHERE (<this>) IS NOT NULL` text expression -/
  textExpr : String
  limit : ℕ

/-- The query `fetch_unenriched` builds for a provider config. -/
def fetchUnenrichedSpec (database : String) (config : ProviderConfig)
    (limit : ℕ) : AntiJoinQuery :=
  { selectCols := select_cols config
    database := database
    srcTable := config.table
    onTableLiteral := config.table
    idColumn := config.id_column
    textExpr := config.text_column
    limit := limit }

/-- The exact f-string template from `fetch_unenriched`. -/
def renderAntiJoinQuery (q : AntiJoinQuery) : String :=
  "\n        SELECT\n            " ++
  sepJoin ",\n            " q.selectCols ++
  "\n        FROM " ++ q.database ++ "." ++ q.srcTable ++
  " src\n        LEFT JOIN " ++ q.database ++
  ".enrichments enr\n            ON enr.source_table = '" ++
  q.onTableLiteral ++
  "'\n            AND enr.source_id = CAST(src." ++ q.idColumn ++
  " AS VARCHAR)\n        WHERE (" ++ q.textExpr ++
  ") IS NOT NULL\n            AND enr.source_id IS NULL" ++
  "\n        ORDER BY src.scraped_at DESC\n        LIMIT " ++
  toString q.limit ++ "\n        "

/-- `fetch_unenriched`'s query string. -/
def fetch_unenriched_query (database : String) (config : ProviderConfig)
    (limit : ℕ) : String :=
  renderAntiJoinQuery (fetchUnenrichedSpec database config limit)

/-- A row of a provider source table, restricted to the fields the
discovery query inspects. -/
structure SrcRow where
  idVal : PyValue
  /-- value of the text expression; SQL `NULL` is `Option.none` -/
  textVal : Option String
  scraped_at : ℤ

/-- A row of the `enrichments` results table (key fields). -/
structure EnrRow where
  source_table : String
  source_id : String

/-- SQL `CAST(x AS VARCHAR)` for the id types providers use. -/
def castVarchar : PyValue → String
  | .int n => toString n
  | .str s => s
  | v => pyStr v

/-- Does an enrichments row satisfy the `ON` condition for a source row? -/
def rowMatches (q : AntiJoinQuery) (s : SrcRow) (e : EnrRow) : Bool :=
  (e.source_table == q.onTableLiteral) && (e.source_id == castVarchar s.idVal)

/-- SQL LEFT OUTER JOIN: every source row paired with each matching
enrichments row, or with `Option.none` when no row matches. -/
def leftJoinRows (q : AntiJoinQuery) (src : List SrcRow)
    (enrs : List EnrRow) : List (SrcRow × Option EnrRow) :=
  (src.map (fun s =>
    let ms := enrs.filter (rowMatches q s)
    if ms.isEmpty then [(s, Option.none)] else ms.map (fun e => (s, some e)))).flatten

/-- Insert into a list sorted by `scraped_at` descending. -/
def insertDesc (s : SrcRow) : List SrcRow → List SrcRow
  | [] => [s]
  | t :: ts =>
      if t.scraped_at ≤ s.scraped_at then s :: t :: ts else t :: insertDesc s ts

/-- `ORDER BY src.scraped_at DESC`. -/
def sortByScrapedDesc : List SrcRow → List SrcRow
  | [] => []
  | s :: ss => insertDesc s (sortByScrapedDesc ss)

/-- The SQL meaning of the discovery query: left-join, keep rows whose text
expression is non-null and whose join found no match, order by `scraped_at`
descending, cap at `limit`. -/
def evalAntiJoinQuery (q : AntiJoinQuery) (src : List SrcRow)
    (enrs : List EnrRow) : List SrcRow :=
  let joined := leftJoinRows q src enrs
  let kept := joined.filter (fun p => p.1.textVal.isSome && p.2.isNone)
  (sortByScrapedDesc (kept.map Prod.fst)).take q.limit

/-- Is a batch event an error log? -/
def MergeEvent.isError : MergeEvent → Bool
  | .errorLogged _ => true
  | .submitted _ => false

/-- Did this record's merge raise (at submission; the poll outcome is
irrelevant since the merge is submitted with `wait=False`)? -/
def mergeRaises (a : MergeAttempt) : Bool :=
  match merge_enriched_record a.submit a.poll with
  | .error _ => true
  | .ok _ => false

/-! ### Theorems -/

/-- `roundHalfEven` agrees with the nearest integer when the argument is not
a tie. -/
theorem roundHalfEven_eq (y : ℝ) (k : ℤ)
    (h1 : (k : ℝ) - 1 / 2 < y) (h2 : y < (k : ℝ) + 1 / 2) :
    roundHalfEven y = k := by
  have hfr : Int.fract y ≠ 1 / 2 := by
    intro h
    have hy : y = (⌊y⌋ : ℝ) + 1 / 2 := by
      have := Int.self_sub_floor y
      rw [h] at this
      linarith
    rw [hy] at h1 h2
    have hk1 : (k : ℝ) < (⌊y⌋ : ℝ) + 1 := by linarith
    have hk2 : (⌊y⌋ : ℝ) < (k : ℝ) := by linarith
    have hq1 : (k : ℤ) < ⌊y⌋ + 1 := by exact_mod_cast hk1
    have hq2 : ⌊y⌋ < k := by exact_mod_cast hk2
    omega
  rw [roundHalfEven, if_neg hfr, round_eq]
  apply Int.floor_eq_iff.mpr
  constructor <;> linarith

/-- Evaluation rule for `pyRound` away from ties. -/
theorem pyRound_eq (n : ℕ) (x : ℝ) (k : ℤ)
    (h1 : (k : ℝ) - 1 / 2 < x * 10 ^ n) (h2 : x * 10 ^ n < (k : ℝ) + 1 / 2) :
    pyRound n x = (k : ℝ) / 10 ^ n := by
  rw [pyRound, roundHalfEven_eq _ k h1 h2]

/-- The tier label, ranked through `tierRank`, is monotone in percentile. -/
theorem get_engagement_tier_mono {p1 p2 : ℝ} (h : p1 ≤ p2) :
    tierRank (EngagementScorer.get_engagement_tier p1) ≤
      tierRank (EngagementScorer.get_engagement_tier p2) := by
  unfold EngagementScorer.get_engagement_tier
  split_ifs <;> simp [tierRank] <;> linarith

/-- The percentile score is nonnegative. -/
theorem calculate_percentile_score_nonneg (s : ℝ) :
    0 ≤ EngagementScorer.calculate_percentile_score s := by
  unfold EngagementScorer.calculate_percentile_score
  split_ifs with h
  · exact le_refl 0
  · exact le_min (by norm_num)
      (mul_nonneg (Real.logb_nonneg (by norm_num) (by linarith)) (by norm_num))

/-- The percentile score is monotone in the engagement score. -/
theorem calculate_percentile_score_mono {s1 s2 : ℝ} (h : s1 ≤ s2) :
    EngagementScorer.calculate_percentile_score s1 ≤
      EngagementScorer.calculate_percentile_score s2 := by
  unfold EngagementScorer.calculate_percentile_score
  split_ifs with h1 h2 h2
  · exact le_refl 0
  · exact le_min (by norm_num)
      (mul_nonneg (Real.logb_nonneg (by norm_num) (by linarith)) (by norm_num))
  · linarith
  · exact min_le_min (le_refl 100)
      (mul_le_mul_of_nonneg_right
        (Real.logb_le_logb_of_le (by norm_num) (by linarith) (by linarith))
        (by norm_num))

/-- `log10 40` lies strictly between 1 and 2 (since `10 ≤ 40 < 100`). -/
theorem logb_ten_forty_bounds :
    1 ≤ Real.logb 10 40 ∧ Real.logb 10 40 < 2 := by
  constructor
  · calc (1:ℝ) = Real.logb 10 10 :=
          (Real.logb_self_eq_one (by norm_num)).symm
      _ ≤ Real.logb 10 40 :=
          Real.logb_le_logb_of_le (by norm_num) (by norm_num) (by norm_num)
  · have h100 : Real.logb 10 100 = 2 := by
      rw [show (100:ℝ) = 10 ^ (2:ℕ) by norm_num, Real.logb_pow]
      simp [Real.logb_self_eq_one]
    calc Real.logb 10 40 < Real.logb 10 100 :=
          Real.logb_lt_logb (by norm_num) (by norm_num) (by norm_num)
      _ = 2 := h100

/-- Lookup after assignment. -/
theorem dictGet_dictSet (d : PyDict) (k k' : String) (v : PyValue) :
    dictGet (dictSet d k v) k' = if k = k' then some v else dictGet d k' := by
  induction d with
  | nil => simp [dictSet, dictGet]
  | cons hd tl ih =>
    obtain ⟨a, b⟩ := hd
    by_cases hak : a = k
    · subst hak
      by_cases h' : a = k' <;> simp [dictSet, dictGet, h']
    · by_cases hak' : a = k'
      · subst hak'
        have hkk' : ¬ k = a := fun h => hak h.symm
        simp [dictSet, dictGet, hak, hkk']
      · simp [dictSet, dictGet, hak, hak', ih]

/-- Lookup distributes over append. -/
theorem dictGet_append (l1 l2 : PyDict) (k : String) :
    dictGet (l1 ++ l2) k = (dictGet l1 k).or (dictGet l2 k) := by
  induction l1 with
  | nil => simp [dictGet]
  | cons hd tl ih =>
    obtain ⟨a, b⟩ := hd
    by_cases hak : a = k <;> simp [dictGet, hak, ih]

/-- Lookup after `dict.update`: the update's last binding wins. -/
theorem dictGet_dictUpdate (d kvs : PyDict) (k : String) :
    dictGet (dictUpdate d kvs) k = (lastGet kvs k).or (dictGet d k) := by
  induction kvs generalizing d with
  | nil => simp [dictUpdate, lastGet, dictGet]
  | cons hd tl ih =>
    obtain ⟨k0, v0⟩ := hd
    have hstep : dictUpdate d ((k0, v0) :: tl) = dictUpdate (dictSet d k0 v0) tl := rfl
    rw [hstep, ih]
    simp only [lastGet, List.reverse_cons, dictGet_append, dictGet_dictSet]
    rcases h : dictGet tl.reverse k with _ | w
    · by_cases hk0 : k0 = k <;> simp [dictGet, hk0]
    · simp

/-- Removing one key leaves the others' lookups unchanged. -/
theorem dictGet_dictRemove (d : PyDict) (k k' : String) (h : ¬ k = k') :
    dictGet (dictRemove d k) k' = dictGet d k' := by
  induction d with
  | nil => simp [dictRemove]
  | cons hd tl ih =>
    obtain ⟨a, b⟩ := hd
    by_cases hak : a = k
    · subst hak
      simp [dictRemove, dictGet, h]
    · simp only [dictRemove, if_neg hak, dictGet, ih]

theorem eqExcept_refl (S : List String) (d : PyDict) : EqExcept S d d := by
  induction d with
  | nil => exact List.Forall₂.nil
  | cons hd tl ih => exact List.Forall₂.cons ⟨rfl, fun _ => rfl⟩ ih

/-- Agreement outside `S` gives equal lookups outside `S`. -/
theorem eqExcept_dictGet {S : List String} {d1 d2 : PyDict}
    (h : EqExcept S d1 d2) {k : String} (hk : k ∉ S) :
    dictGet d1 k = dictGet d2 k := by
  induction h with
  | nil => rfl
  | @cons p q t1 t2 hp htl ih =>
    obtain ⟨a1, b1⟩ := p
    obtain ⟨a2, b2⟩ := q
    obtain ⟨hkeq, hval⟩ := hp
    simp only at hkeq hval
    subst hkeq
    by_cases hk1 : a1 = k
    · subst hk1
      simp [dictGet, hval hk]
    · simp [dictGet, hk1, ih]

/-- `EqExcept` is preserved by parallel assignment (values may differ only
when the key is in `S`). -/
theorem eqExcept_dictSet {S : List String} {d1 d2 : PyDict}
    (h : EqExcept S d1 d2) (k : String) (v1 v2 : PyValue)
    (hv : k ∈ S ∨ v1 = v2) :
    EqExcept S (dictSet d1 k v1) (dictSet d2 k v2) := by
  induction h with
  | nil =>
    refine List.Forall₂.cons ⟨rfl, fun hk => ?_⟩ List.Forall₂.nil
    rcases hv with hv | hv
    · exact absurd hv hk
    · exact hv
  | @cons p q t1 t2 hp htl ih =>
    obtain ⟨a1, b1⟩ := p
    obtain ⟨a2, b2⟩ := q
    obtain ⟨hkeq, hval⟩ := hp
    simp only at hkeq hval
    subst hkeq
    by_cases hk1 : a1 = k
    · subst hk1
      simp only [dictSet, if_pos rfl]
      refine List.Forall₂.cons ⟨rfl, fun hk => ?_⟩ htl
      rcases hv with hv | hv
      · exact absurd hv hk
      · exact hv
    · simp only [dictSet, if_neg hk1]
      exact List.Forall₂.cons ⟨rfl, hval⟩ ih

/-- `EqExcept` is preserved by parallel removal of the same key. -/
theorem eqExcept_dictRemove {S : List String} {d1 d2 : PyDict}
    (h : EqExcept S d1 d2) (k : String) :
    EqExcept S (dictRemove d1 k) (dictRemove d2 k) := by
  induction h with
  | nil => exact List.Forall₂.nil
  | @cons p q t1 t2 hp htl ih =>
    obtain ⟨a1, b1⟩ := p
    obtain ⟨a2, b2⟩ := q
    obtain ⟨hkeq, hval⟩ := hp
    simp only at hkeq hval
    subst hkeq
    by_cases hk1 : a1 = k
    · simp only [dictRemove, if_pos hk1]
      exact htl
    · simp only [dictRemove, if_neg hk1]
      exact List.Forall₂.cons ⟨rfl, hval⟩ ih

theorem stageCompat_refl (S : List String) (kvs : PyDict) :
    StageCompat S kvs kvs := by
  induction kvs with
  | nil => exact List.Forall₂.nil
  | cons hd tl ih => exact List.Forall₂.cons ⟨rfl, Or.inr rfl⟩ ih

/-- `EqExcept` is preserved by parallel `dict.update` with stage-compatible
payloads. -/
theorem eqExcept_dictUpdate {S : List String} {d1 d2 : PyDict}
    (h : EqExcept S d1 d2) {kvs1 kvs2 : PyDict}
    (hkvs : StageCompat S kvs1 kvs2) :
    EqExcept S (dictUpdate d1 kvs1) (dictUpdate d2 kvs2) := by
  induction hkvs generalizing d1 d2 with
  | nil => exact h
  | @cons p q t1 t2 hp htl ih =>
    obtain ⟨a1, b1⟩ := p
    obtain ⟨a2, b2⟩ := q
    obtain ⟨hkeq, hval⟩ := hp
    simp only at hkeq hval
    subst hkeq
    rw [show dictUpdate d1 ((a1, b1) :: t1) = dictUpdate (dictSet d1 a1 b1) t1 from rfl,
        show dictUpdate d2 ((a1, b2) :: t2) = dictUpdate (dictSet d2 a1 b2) t2 from rfl]
    exact ih (eqExcept_dictSet h a1 b1 b2 hval)

/-- Chunking at a positive size partitions the list exactly. -/
theorem chunkList_flatten {α : Type} (bs : ℕ) (h : 0 < bs) :
    ∀ l : List α, (chunkList bs l).flatten = l
  | [] => by simp [chunkList]
  | x :: xs => by
      rw [chunkList, if_neg (Nat.pos_iff_ne_zero.mp h)]
      rw [List.flatten_cons, chunkList_flatten bs h ((x :: xs).drop bs),
        List.take_append_drop]
  termination_by l => l.length
  decreasing_by simp; omega

/-- Unfolding of `EngagementScorer.score` (the `let` bindings expanded). -/
theorem EngagementScorer.score_def (l r p v : ℤ) (e : Option ℝ) :
    EngagementScorer.score l r p v e =
      { engagement_score :=
          pyRound 2 ((l : ℝ) * 1.0 + (r : ℝ) * 3.0 + (p : ℝ) * 2.0 + (v : ℝ) * 0.01)
        engagement_rate :=
          pyRound 4 (if 0 < v then ((l + r + p : ℤ) : ℝ) / (v : ℝ) else 0.0)
        virality_score :=
          pyRound 4 (if 0 < l + r + p then (r : ℝ) / ((l + r + p : ℤ) : ℝ) else 0.0)
        interaction_quality :=
          pyRound 4 (if 0 < l then ((p + r : ℤ) : ℝ) / (l : ℝ) else 0.0)
        time_adjusted_score :=
          pyRound 2 (EngagementScorer.calculate_time_adjusted_score
            ((l : ℝ) * 1.0 + (r : ℝ) * 3.0 + (p : ℝ) * 2.0 + (v : ℝ) * 0.01) e)
        percentile_score :=
          pyRound 2 (EngagementScorer.calculate_percentile_score
            ((l : ℝ) * 1.0 + (r : ℝ) * 3.0 + (p : ℝ) * 2.0 + (v : ℝ) * 0.01))
        engagement_tier :=
          EngagementScorer.get_engagement_tier
            (EngagementScorer.calculate_percentile_score
              ((l : ℝ) * 1.0 + (r : ℝ) * 3.0 + (p : ℝ) * 2.0 + (v : ℝ) * 0.01)) } :=
  rfl

/-- **C2** (counterexample): for the record with likes=10, retweets=5,
replies=2, views=1000, posted one hour before now, the engagement tier the
code computes is "Average" (the percentile ≈ 40.05 is below the
"Above Average" threshold of 50), so the claimed tier "Above Average" is
wrong. -/
theorem c2_tier_counterexample :
    (EngagementScorer.score 10 5 2 1000 (some 1)).engagement_tier = "Average" ∧
      "Average" ≠ "Above Average" := by
  constructor
  · rw [EngagementScorer.score_def]
    show EngagementScorer.get_engagement_tier
        (EngagementScorer.calculate_percentile_score
          (((10 : ℤ) : ℝ) * 1.0 + ((5 : ℤ) : ℝ) * 3.0 + ((2 : ℤ) : ℝ) * 2.0 +
            ((1000 : ℤ) : ℝ) * 0.01)) = "Average"
    rw [show (((10 : ℤ) : ℝ) * 1.0 + ((5 : ℤ) : ℝ) * 3.0 + ((2 : ℤ) : ℝ) * 2.0 +
        ((1000 : ℤ) : ℝ) * 0.01) = 39 by norm_num]
    have hpct : EngagementScorer.calculate_percentile_score 39 =
        min 100 (Real.logb 10 40 * 25) := by
      rw [EngagementScorer.calculate_percentile_score, if_neg (by norm_num)]
      norm_num
    obtain ⟨hlb1, hlb2⟩ := logb_ten_forty_bounds
    have hlow : (25:ℝ) ≤ min 100 (Real.logb 10 40 * 25) :=
      le_min (by norm_num) (by nlinarith)
    have hhigh : min (100:ℝ) (Real.logb 10 40 * 25) < 50 :=
      lt_of_le_of_lt (min_le_right _ _) (by nlinarith)
    rw [hpct, EngagementScorer.get_engagement_tier, if_neg (by linarith),
      if_neg (by linarith), if_neg (by linarith), if_pos (by linarith)]
  · decide

/-- **C2** (amended): for likes=10, retweets=5, replies=2, views=1000 and
posted_at one hour before now, `score` returns engagement_score = 39.0,
engagement_rate = 0.017, virality_score = 0.2941, interaction_quality =
0.7, time_adjusted_score = 39.0, percentile_score = round(min(100,
log10(40)*25), 2) (≈ 40.05), and engagement_tier "Average". -/
theorem c2_engagement_bundle :
    (EngagementScorer.score 10 5 2 1000 (some 1)).engagement_score = 39 ∧
    (EngagementScorer.score 10 5 2 1000 (some 1)).engagement_rate = 0.017 ∧
    (EngagementScorer.score 10 5 2 1000 (some 1)).virality_score = 0.2941 ∧
    (EngagementScorer.score 10 5 2 1000 (some 1)).interaction_quality = 0.7 ∧
    (EngagementScorer.score 10 5 2 1000 (some 1)).time_adjusted_score = 39 ∧
    (EngagementScorer.score 10 5 2 1000 (some 1)).percentile_score =
      pyRound 2 (min 100 (Real.logb 10 40 * 25)) ∧
    (EngagementScorer.score 10 5 2 1000 (some 1)).engagement_tier = "Average" := by
  rw [EngagementScorer.score_def]
  have h39 : (((10 : ℤ) : ℝ) * 1.0 + ((5 : ℤ) : ℝ) * 3.0 + ((2 : ℤ) : ℝ) * 2.0 +
      ((1000 : ℤ) : ℝ) * 0.01) = 39 := by norm_num
  refine ⟨?_, ?_, ?_, ?_, ?_, ?_, ?_⟩
  · show pyRound 2 _ = 39
    rw [h39, pyRound_eq 2 39 3900 (by norm_num) (by norm_num)]
    norm_num
  · show pyRound 4 _ = 0.017
    rw [if_pos (by norm_num : (0:ℤ) < 1000)]
    rw [show (((10 + 5 + 2 : ℤ) : ℝ) / ((1000 : ℤ) : ℝ)) = 17 / 1000 by norm_num]
    rw [pyRound_eq 4 (17 / 1000) 170 (by norm_num) (by norm_num)]
    norm_num
  · show pyRound 4 _ = 0.2941
    rw [if_pos (by norm_num : (0:ℤ) < 10 + 5 + 2)]
    rw [show (((5 : ℤ) : ℝ) / ((10 + 5 + 2 : ℤ) : ℝ)) = 5 / 17 by norm_num]
    rw [pyRound_eq 4 (5 / 17) 2941 (by norm_num) (by norm_num)]
    norm_num
  · show pyRound 4 _ = 0.7
    rw [if_pos (by norm_num : (0:ℤ) < 10)]
    rw [show (((2 + 5 : ℤ) : ℝ) / ((10 : ℤ) : ℝ)) = 7 / 10 by norm_num]
    rw [pyRound_eq 4 (7 / 10) 7000 (by norm_num) (by norm_num)]
    norm_num
  · show pyRound 2 _ = 39
    rw [h39]
    have hta : EngagementScorer.calculate_time_adjusted_score 39 (some 1) = 39 := by
      rw [EngagementScorer.calculate_time_adjusted_score]
      rw [if_neg (by norm_num : ¬ (1:ℝ) ≤ 0)]
      norm_num
    rw [hta, pyRound_eq 2 39 3900 (by norm_num) (by norm_num)]
    norm_num
  · show pyRound 2 _ = _
    rw [h39]
    have hpct : EngagementScorer.calculate_percentile_score 39 =
        min 100 (Real.logb 10 40 * 25) := by
      rw [EngagementScorer.calculate_percentile_score, if_neg (by norm_num)]
      norm_num
    rw [hpct]
  · show EngagementScorer.get_engagement_tier _ = "Average"
    rw [h39]
    have hpct : EngagementScorer.calculate_percentile_score 39 =
        min 100 (Real.logb 10 40 * 25) := by
      rw [EngagementScorer.calculate_percentile_score, if_neg (by norm_num)]
      norm_num
    obtain ⟨hlb1, hlb2⟩ := logb_ten_forty_bounds
    have hlow : (25:ℝ) ≤ min 100 (Real.logb 10 40 * 25) :=
      le_min (by norm_num) (by nlinarith)
    have hhigh : min (100:ℝ) (Real.logb 10 40 * 25) < 50 :=
      lt_of_le_of_lt (min_le_right _ _) (by nlinarith)
    rw [hpct, EngagementScorer.get_engagement_tier, if_neg (by linarith),
      if_neg (by linarith), if_neg (by linarith), if_pos (by linarith)]

/-- **C8**: for engagement scores `s1 < s2`, the tier computed from
`_calculate_percentile_score` via `_get_engagement_tier` for `s2` is never
lower-ranked than the tier for `s1` (the composition is monotone). -/
theorem c8_tier_monotone (s1 s2 : ℝ) (h : s1 < s2) :
    tierRank (EngagementScorer.get_engagement_tier
        (EngagementScorer.calculate_percentile_score s1)) ≤
      tierRank (EngagementScorer.get_engagement_tier
        (EngagementScorer.calculate_percentile_score s2)) :=
  get_engagement_tier_mono (calculate_percentile_score_mono h.le)

/-- Witness for `c8_tier_monotone` at the concrete scores 1 < 2. -/
theorem c8_tier_monotone_witness :
    (1 : ℝ) < 2 ∧
      tierRank (EngagementScorer.get_engagement_tier
          (EngagementScorer.calculate_percentile_score 1)) ≤
        tierRank (EngagementScorer.get_engagement_tier
          (EngagementScorer.calculate_percentile_score 2)) :=
  ⟨by norm_num, c8_tier_monotone 1 2 (by norm_num)⟩

/-- **C9**: on empty or whitespace-only text, each of the four semantic
modules returns its own default bundle and does not contact the external
extraction service (the `false` component). -/
theorem c9_blank_guard (zai : String → Except String PyDict)
    (text author : String) (h : text = "" ∨ pyStrip text = "") :
    SentimentAnalyzer.analyze zai text = (SentimentAnalyzer.empty_result, false) ∧
    EntityExtractor.extract zai text = (EntityExtractor.empty_result, false) ∧
    TopicClassifier.classify zai text author = (TopicClassifier.empty_result, false) ∧
    ContentModerator.moderate zai text = (ContentModerator.safe_result, false) := by
  have hb : pyBlank text = true := by
    rcases h with h | h
    · subst h
      rfl
    · simp [pyBlank, h]
  exact ⟨by simp [SentimentAnalyzer.analyze, hb],
    by simp [EntityExtractor.extract, hb],
    by simp [TopicClassifier.classify, hb],
    by simp [ContentModerator.moderate, hb]⟩

/-- Witness for `c9_blank_guard` on the whitespace-only text "  ". -/
theorem c9_blank_guard_witness :
    ("  " = "" ∨ pyStrip "  " = "") ∧
      SentimentAnalyzer.analyze (fun _ => .error "boom") "  " =
        (SentimentAnalyzer.empty_result, false) :=
  ⟨Or.inr rfl,
    (c9_blank_guard (fun _ => .error "boom") "  " "" (Or.inr rfl)).1⟩

/-- **C4** (counterexample): with the results table provisioned and every
configured provider's read raising, the run completes normally and the
process exit status is 0 — not the non-zero status the claim asserts. -/
theorem c4_counterexample :
    pipeline_run (.ok ())
        [(.error "read failed", true), (.error "read failed", true)] =
      .completed 0 ∧
    exitCodeOf (pipeline_run (.ok ())
        [(.error "read failed", true), (.error "read failed", true)]) = 0 :=
  ⟨rfl, rfl⟩

/-- **C4** (amended): the process exits non-zero (status 1) exactly when
results-table provisioning fails; with provisioning succeeded the run
always completes normally with exit status 0, whatever subset of the
providers' reads fails — including all of them. -/
theorem c4_exit_behavior (e : String)
    (providers : List (Except String (List PyDict) × Bool)) :
    pipeline_run (.error e) providers = .exited 1 ∧
    exitCodeOf (pipeline_run (.error e) providers) = 1 ∧
    exitCodeOf (pipeline_run (.ok ()) providers) = 0 :=
  ⟨rfl, rfl, rfl⟩

/-- **C10**: `merge_enriched_record` submits with `wait=False`, so its
result never depends on the engine-side poll outcome (FAILED, CANCELLED or
poll timeout never raise); a successful submission returns the execution
id, a raised submission error propagates, and the batch writer's
per-record event is determined by the submission outcome alone. -/
theorem c10_merge_no_wait (submit : Except String String)
    (p1 p2 : PollOutcome) (qid err i : String) :
    merge_enriched_record submit p1 = merge_enriched_record submit p2 ∧
    merge_enriched_record (.ok qid) p1 = .ok qid ∧
    merge_enriched_record (.error err) p1 = .error err ∧
    merge_record_event ⟨i, .ok qid, p1⟩ = .submitted i ∧
    merge_record_event ⟨i, .error err, p1⟩ = .errorLogged i := by
  refine ⟨?_, rfl, rfl, rfl, rfl⟩
  cases submit <;> rfl

/-- **C3** (counterexample): the batch writer's Python return value is
`None` (modelled as `Unit`), so for the batch with exactly one raising
record it returns exactly what it returns for the all-successful batch —
no `{written, failed}` report is returned at all. -/
theorem c3_counterexample :
    (merge_enriched_records_batch
        [⟨"a", .ok "q1", .succeeded⟩, ⟨"b", .error "boom", .succeeded⟩,
         ⟨"c", .ok "q3", .succeeded⟩] 10).1 =
      (merge_enriched_records_batch
        [⟨"a", .ok "q1", .succeeded⟩, ⟨"b", .ok "q2", .succeeded⟩,
         ⟨"c", .ok "q3", .succeeded⟩] 10).1 ∧
    (merge_enriched_records_batch
        [⟨"a", .ok "q1", .succeeded⟩, ⟨"b", .error "boom", .succeeded⟩,
         ⟨"c", .ok "q3", .succeeded⟩] 10).1 = () :=
  ⟨rfl, rfl⟩

/-- **C3** (amended): for every batch and positive batch size the writer
processes every record in order — each raising record is caught and logged
as an error event, every other record's merge is submitted — it raises
nothing to the caller, and it returns `None` (no `{written, failed}`
report); the failed/written tallies are recoverable only from the event
log, where they count exactly the raising records. -/
theorem c3_batch_write_isolation (records : List MergeAttempt)
    (batch_size : ℕ) (hbs : 0 < batch_size) :
    (merge_enriched_records_batch records batch_size).2 =
      records.map merge_record_event ∧
    (merge_enriched_records_batch records batch_size).1 = () ∧
    (((merge_enriched_records_batch records batch_size).2.filter
        MergeEvent.isError).length =
      (records.filter mergeRaises).length) ∧
    (((merge_enriched_records_batch records batch_size).2.filter
        (fun ev => !ev.isError)).length =
      (records.filter (fun a => !mergeRaises a)).length) := by
  have hflat : (merge_enriched_records_batch records batch_size).2 =
      records.map merge_record_event := by
    show (((chunkList batch_size records).map
      (fun batch => batch.map merge_record_event)).flatten) = _
    rw [← List.map_flatten, chunkList_flatten batch_size hbs]
  have hpt : ∀ a : MergeAttempt,
      MergeEvent.isError (merge_record_event a) = mergeRaises a := by
    intro a
    rw [merge_record_event, mergeRaises]
    cases merge_enriched_record a.submit a.poll <;> rfl
  refine ⟨hflat, rfl, ?_, ?_⟩
  · rw [hflat, List.filter_map, List.length_map]
    have hc : List.filter (MergeEvent.isError ∘ merge_record_event) records =
        List.filter mergeRaises records :=
      List.filter_congr (fun a _ => hpt a)
    rw [hc]
  · rw [hflat, List.filter_map, List.length_map]
    have hc : List.filter ((fun ev => !MergeEvent.isError ev) ∘ merge_record_event)
          records =
        List.filter (fun a => !mergeRaises a) records :=
      List.filter_congr (fun a _ => by
        show (!MergeEvent.isError (merge_record_event a)) = (!mergeRaises a)
        rw [hpt a])
    rw [hc]

/-- Witness for `c3_batch_write_isolation`: batch size 2, three records of
which exactly the middle one raises. -/
theorem c3_batch_write_isolation_witness :
    0 < 2 ∧
      ((merge_enriched_records_batch
          [⟨"a", .ok "q1", .succeeded⟩, ⟨"b", .error "boom", .succeeded⟩,
           ⟨"c", .ok "q3", .succeeded⟩] 2).2 =
        [⟨"a", .ok "q1", .succeeded⟩, ⟨"b", .error "boom", .succeeded⟩,
         ⟨"c", .ok "q3", .succeeded⟩].map merge_record_event ∧
      (merge_enriched_records_batch
          [⟨"a", .ok "q1", .succeeded⟩, ⟨"b", .error "boom", .succeeded⟩,
           ⟨"c", .ok "q3", .succeeded⟩] 2).1 = () ∧
      (((merge_enriched_records_batch
          [⟨"a", .ok "q1", .succeeded⟩, ⟨"b", .error "boom", .succeeded⟩,
           ⟨"c", .ok "q3", .succeeded⟩] 2).2.filter
            MergeEvent.isError).length =
        ([⟨"a", .ok "q1", .succeeded⟩, ⟨"b", .error "boom", .succeeded⟩,
          ⟨"c", .ok "q3", .succeeded⟩].filter mergeRaises).length) ∧
      (((merge_enriched_records_batch
          [⟨"a", .ok "q1", .succeeded⟩, ⟨"b", .error "boom", .succeeded⟩,
           ⟨"c", .ok "q3", .succeeded⟩] 2).2.filter
            (fun ev => !ev.isError)).length =
        ([⟨"a", .ok "q1", .succeeded⟩, ⟨"b", .error "boom", .succeeded⟩,
          ⟨"c", .ok "q3", .succeeded⟩].filter
            (fun a => !mergeRaises a)).length)) :=
  ⟨by decide,
    c3_batch_write_isolation
      [⟨"a", .ok "q1", .succeeded⟩, ⟨"b", .error "boom", .succeeded⟩,
       ⟨"c", .ok "q3", .succeeded⟩] 2 (by decide)⟩

/-- **C7** (counterexample): a dict value containing a `datetime` is not
serialized to a quoted JSON string — `json.dumps` raises `TypeError`
(modelled as `Option.none`), so `_format_single_value` raises instead of
returning a literal. -/
theorem c7_counterexample :
    formatSingleValue (.dict [("a", .datetime 2024 1 1 0 0 0)]) = Option.none :=
  rfl

/-- **C7** (amended): `_format_single_value` serializes exactly per the
rules — `None` to the literal `NULL`; strings with each single quote
doubled, wrapped in single quotes; datetimes as second-precision TIMESTAMP
literals; dates as DATE literals; booleans as bare `true`/`false`; lists
as bracketed ARRAY literals of recursively formatted elements; any other
scalar (int/float) via its direct string form; and a dict as a
single-quoted escaped JSON string provided every nested value is
JSON-serializable (otherwise `json.dumps` raises). -/
theorem c7_format_rules (s : String) (y mo d h mi sec : ℕ) (b : Bool)
    (xs : List PyValue) (es : List (String × PyValue)) (n : ℤ) (q : ℚ)
    (js : String) (hjs : jsonDumps (.dict es) = some js) :
    formatSingleValue PyValue.none = some "NULL" ∧
    formatSingleValue (.str s) = some ("'" ++ s.replace "'" "''" ++ "'") ∧
    formatSingleValue (.datetime y mo d h mi sec) =
      some ("TIMESTAMP '" ++ padZero 4 y ++ "-" ++ padZero 2 mo ++ "-" ++
        padZero 2 d ++ " " ++ padZero 2 h ++ ":" ++ padZero 2 mi ++ ":" ++
        padZero 2 sec ++ "'") ∧
    formatSingleValue (.date y mo d) =
      some ("DATE '" ++ padZero 4 y ++ "-" ++ padZero 2 mo ++ "-" ++
        padZero 2 d ++ "'") ∧
    formatSingleValue (.bool b) = some (if b then "true" else "false") ∧
    formatSingleValue (.list xs) =
      (formatValueList xs).map
        (fun items => "ARRAY[" ++ sepJoin ", " items ++ "]") ∧
    formatSingleValue (.dict es) =
      some ("'" ++ js.replace "'" "''" ++ "'") ∧
    formatSingleValue (.int n) = some (toString n) ∧
    formatSingleValue (.float q) = some (pyFloatStr q) := by
  refine ⟨rfl, rfl, rfl, rfl, rfl, rfl, ?_, rfl, rfl⟩
  show (jsonDumps (.dict es)).map
      (fun js => "'" ++ js.replace "'" "''" ++ "'") = _
  rw [hjs]
  rfl

/-- Witness for `c7_format_rules` on the JSON-serializable dict
`{"a": "x"}`. -/
theorem c7_format_rules_witness :
    jsonDumps (.dict [("a", .str "x")]) = some "\x7b\"a\": \"x\"\x7d" ∧
      formatSingleValue (.dict [("a", .str "x")]) =
        some ("'" ++ ("\x7b\"a\": \"x\"\x7d").replace "'" "''" ++ "'") :=
  ⟨rfl,
    (c7_format_rules "" 0 0 0 0 0 0 false [] [("a", .str "x")] 0 0
        "\x7b\"a\": \"x\"\x7d" rfl).2.2.2.2.2.2.1⟩

/-- **C6**: for any raw row and any `ProviderConfig` with only the required
fields populated, `normalize_record` is total (it is a Lean function) and
every absent optional field takes its default — `0` for the
likes/retweets/replies/views counters, `''` for
author/keyword/region/source_url, and `None` for `posted_at`. -/
theorem c6_normalize_defaults (table idc textc : String) (raw : PyDict) :
    normalize_record raw
        ⟨table, idc, textc, Option.none, Option.none, Option.none,
          Option.none, Option.none, Option.none, Option.none, Option.none,
          Option.none⟩ =
      [("source_table", PyValue.str table),
       ("source_id", PyValue.str (pyStr (pyGetD raw idc (.str "")))),
       ("text", pyOr (pyGetD raw "source_text" (.str "")) (.str "")),
       ("author", PyValue.str ""),
       ("likes", PyValue.int 0),
       ("retweets", PyValue.int 0),
       ("replies", PyValue.int 0),
       ("views", PyValue.int 0),
       ("posted_at", PyValue.none),
       ("keyword", PyValue.str ""),
       ("region", PyValue.str ""),
       ("scraped_at", pyGetD raw "scraped_at" PyValue.none),
       ("source_url", PyValue.str "")] :=
  rfl

/-- An auxiliary fact: a filtered list is empty exactly when no element
satisfies the predicate. -/
theorem filter_isEmpty_eq_not_any {α : Type} (l : List α) (p : α → Bool) :
    (l.filter p).isEmpty = !l.any p := by
  induction l with
  | nil => rfl
  | cons x xs ih =>
    by_cases hx : p x = true <;> simp [List.filter, List.any, hx, ih]

/-- The LEFT JOIN + `IS NOT NULL` + `enr.source_id IS NULL` combination is
an anti-join: it keeps exactly the source rows with non-null text and no
matching enrichments row. -/
theorem leftJoin_antiJoin (q : AntiJoinQuery) (src : List SrcRow)
    (enrs : List EnrRow) :
    ((leftJoinRows q src enrs).filter
        (fun p => p.1.textVal.isSome && p.2.isNone)).map Prod.fst =
      src.filter
        (fun s => s.textVal.isSome && !(enrs.any (rowMatches q s))) := by
  induction src with
  | nil => rfl
  | cons s ss ih =>
    rw [show leftJoinRows q (s :: ss) enrs =
        (if (enrs.filter (rowMatches q s)).isEmpty then [(s, Option.none)]
         else (enrs.filter (rowMatches q s)).map (fun e => (s, some e))) ++
          leftJoinRows q ss enrs from by
      simp [leftJoinRows]]
    rw [List.filter_append, List.map_append, ih]
    by_cases hm : (enrs.filter (rowMatches q s)).isEmpty = true
    · rw [if_pos hm]
      have hnot : (!enrs.any (rowMatches q s)) = true := by
        rw [← filter_isEmpty_eq_not_any]
        exact hm
      rcases ht : s.textVal.isSome with _ | _
      · simp [List.filter_cons, ht]
      · simp [List.filter_cons, ht, hnot]
    · rw [if_neg hm]
      have hany : enrs.any (rowMatches q s) = true := by
        rcases hA : enrs.any (rowMatches q s) with _ | _
        · have hie := filter_isEmpty_eq_not_any enrs (rowMatches q s)
          rw [hA, Bool.not_false] at hie
          exact absurd hie hm
        · rfl
      have hfilters :
          ((enrs.filter (rowMatches q s)).map (fun e => (s, some e))).filter
            (fun p => p.1.textVal.isSome && p.2.isNone) = [] := by
        rw [List.filter_map]
        have : ((enrs.filter (rowMatches q s)).filter
            ((fun p => p.1.textVal.isSome && p.2.isNone) ∘
              (fun e => (s, some e)))) = [] := by
          apply List.filter_eq_nil_iff.mpr
          intro e _
          simp [Function.comp]
        rw [this]
        rfl
      rw [hfilters]
      simp [List.filter_cons, hany]

/-- **C5**: for every provider config and limit, the query built by
`fetch_unenriched` is the rendering of an anti-join query template that
left-outer-joins the provider's table against `enrichments` on the
composite key (`source_table` = the provider's table name as a string
literal, `source_id` = `CAST` of the provider's id column to VARCHAR),
keeps only rows whose text expression is non-null and whose join found no
match, orders by `scraped_at` descending and limits to `limit` rows; under
the standard SQL semantics of that template the result is exactly the
anti-join of the two tables, sorted descending and truncated. -/
theorem c5_fetch_unenriched (db : String) (cfg : ProviderConfig)
    (limit : ℕ) (src : List SrcRow) (enrs : List EnrRow) :
    fetch_unenriched_query db cfg limit =
      renderAntiJoinQuery (fetchUnenrichedSpec db cfg limit) ∧
    (fetchUnenrichedSpec db cfg limit).onTableLiteral = cfg.table ∧
    (fetchUnenrichedSpec db cfg limit).idColumn = cfg.id_column ∧
    (fetchUnenrichedSpec db cfg limit).textExpr = cfg.text_column ∧
    (fetchUnenrichedSpec db cfg limit).limit = limit ∧
    evalAntiJoinQuery (fetchUnenrichedSpec db cfg limit) src enrs =
      (sortByScrapedDesc (src.filter (fun s =>
          s.textVal.isSome &&
            !(enrs.any (fun e =>
                (e.source_table == cfg.table) &&
                  (e.source_id == castVarchar s.idVal)))))).take limit := by
  refine ⟨rfl, rfl, rfl, rfl, rfl, ?_⟩
  show (sortByScrapedDesc
      (((leftJoinRows (fetchUnenrichedSpec db cfg limit) src enrs).filter
          (fun p => p.1.textVal.isSome && p.2.isNone)).map Prod.fst)).take
        (fetchUnenrichedSpec db cfg limit).limit = _
  rw [leftJoin_antiJoin]
  rfl

/-- `SentimentAnalyzer.analyze` with a raising collaborator always returns
the analyzer's own empty result (label "neutral"): the exception is caught
inside the module, before the orchestrator's `except` branch could fire. -/
theorem analyze_fail_returns_empty (err text : String) :
    (SentimentAnalyzer.analyze (fun _ => .error err) text).1 =
      SentimentAnalyzer.empty_result := by
  rw [SentimentAnalyzer.analyze]
  split <;> rfl

/-- **C1** (counterexample): for the canonical record normalized from the
row `{tweet_id: 42, source_text: "Great launch!"}` with the sentiment
collaborator raising, the enriched record's `sentiment_label` is
"neutral" — the analyzer's internal empty-result bundle — not the
"unknown" the claim asserts. -/
theorem c1_counterexample :
    dictGet
      (EnrichmentPipeline.enrich_record allFlags
        (PyValue.datetime 2024 1 1 0 0 0) (PyValue.date 2024 1 1)
        (normalize_record
          [("tweet_id", .int 42), ("source_text", .str "Great launch!")]
          ⟨"x_tweets", "tweet_id", "tweet_text", Option.none, Option.none,
            Option.none, Option.none, Option.none, Option.none, Option.none,
            Option.none, Option.none⟩)
        (.ok (SentimentAnalyzer.analyze (fun _ => .error "timeout")
          (recordTextStr (normalize_record
            [("tweet_id", .int 42), ("source_text", .str "Great launch!")]
            ⟨"x_tweets", "tweet_id", "tweet_text", Option.none, Option.none,
              Option.none, Option.none, Option.none, Option.none,
              Option.none, Option.none, Option.none⟩))).1)
        (.ok EntityExtractor.empty_result)
        (.ok TopicClassifier.empty_result)
        (.ok EnrichmentPipeline.engagement_fallback)
        (.ok ContentModerator.safe_result))
      "sentiment_label" = some (PyValue.str "neutral") ∧
    some (PyValue.str "neutral") ≠ some (PyValue.str "unknown") := by
  refine ⟨rfl, ?_⟩
  intro h
  simp only [Option.some.injEq, PyValue.str.injEq] at h
  exact absurd h (by decide)

/-- **C1** (amended): for every canonical record, if the structured
extraction collaborator raises during the sentiment stage, the enriched
record carries the analyzer's own empty-result bundle
`{sentiment_label: "neutral", sentiment_score: 0.0, sentiment_emotions: [],
sentiment_topics: []}` (the exception is caught inside the module, so the
orchestrator's "unknown" fallback never fires), and every field outside
the sentiment stage's key set is exactly what it would be had the stage
returned any well-shaped sentiment bundle, provided the other stages'
merged bundles do not reuse sentiment keys. -/
theorem c1_sentiment_stage_failure (raw : PyDict) (cfg : ProviderConfig)
    (now today : PyValue) (err : String)
    (entity topic engagement moderation : Except String PyDict)
    (s2 : PyDict)
    (hs2 : StageCompat sentimentKeys SentimentAnalyzer.empty_result s2)
    (hE : ∀ k ∈ sentimentKeys,
      lastGet (mergeStage entity EnrichmentPipeline.entity_fallback) k =
        Option.none)
    (hT : ∀ k ∈ sentimentKeys,
      lastGet (mergeStage topic EnrichmentPipeline.topic_fallback) k =
        Option.none)
    (hG : ∀ k ∈ sentimentKeys,
      lastGet (mergeStage engagement EnrichmentPipeline.engagement_fallback) k =
        Option.none)
    (hM : ∀ k ∈ sentimentKeys,
      lastGet (mergeStage moderation EnrichmentPipeline.moderation_fallback) k =
        Option.none) :
    (dictGet
        (EnrichmentPipeline.enrich_record allFlags now today
          (normalize_record raw cfg)
          (.ok (SentimentAnalyzer.analyze (fun _ => .error err)
            (recordTextStr (normalize_record raw cfg))).1)
          entity topic engagement moderation)
        "sentiment_label" = some (PyValue.str "neutral") ∧
      dictGet
        (EnrichmentPipeline.enrich_record allFlags now today
          (normalize_record raw cfg)
          (.ok (SentimentAnalyzer.analyze (fun _ => .error err)
            (recordTextStr (normalize_record raw cfg))).1)
          entity topic engagement moderation)
        "sentiment_score" = some (PyValue.float 0) ∧
      dictGet
        (EnrichmentPipeline.enrich_record allFlags now today
          (normalize_record raw cfg)
          (.ok (SentimentAnalyzer.analyze (fun _ => .error err)
            (recordTextStr (normalize_record raw cfg))).1)
          entity topic engagement moderation)
        "sentiment_emotions" = some (PyValue.list []) ∧
      dictGet
        (EnrichmentPipeline.enrich_record allFlags now today
          (normalize_record raw cfg)
          (.ok (SentimentAnalyzer.analyze (fun _ => .error err)
            (recordTextStr (normalize_record raw cfg))).1)
          entity topic engagement moderation)
        "sentiment_topics" = some (PyValue.list [])) ∧
    ∀ k, k ∉ sentimentKeys →
      dictGet
          (EnrichmentPipeline.enrich_record allFlags now today
            (normalize_record raw cfg)
            (.ok (SentimentAnalyzer.analyze (fun _ => .error err)
              (recordTextStr (normalize_record raw cfg))).1)
            entity topic engagement moderation) k =
        dictGet
          (EnrichmentPipeline.enrich_record allFlags now today
            (normalize_record raw cfg) (.ok s2)
            entity topic engagement moderation) k := by
  rw [analyze_fail_returns_empty err (recordTextStr (normalize_record raw cfg))]
  constructor
  · have e1 := hE "sentiment_label" (by simp [sentimentKeys])
    have e2 := hE "sentiment_score" (by simp [sentimentKeys])
    have e3 := hE "sentiment_emotions" (by simp [sentimentKeys])
    have e4 := hE "sentiment_topics" (by simp [sentimentKeys])
    have t1 := hT "sentiment_label" (by simp [sentimentKeys])
    have t2 := hT "sentiment_score" (by simp [sentimentKeys])
    have t3 := hT "sentiment_emotions" (by simp [sentimentKeys])
    have t4 := hT "sentiment_topics" (by simp [sentimentKeys])
    have g1 := hG "sentiment_label" (by simp [sentimentKeys])
    have g2 := hG "sentiment_score" (by simp [sentimentKeys])
    have g3 := hG "sentiment_emotions" (by simp [sentimentKeys])
    have g4 := hG "sentiment_topics" (by simp [sentimentKeys])
    have m1 := hM "sentiment_label" (by simp [sentimentKeys])
    have m2 := hM "sentiment_score" (by simp [sentimentKeys])
    have m3 := hM "sentiment_emotions" (by simp [sentimentKeys])
    have m4 := hM "sentiment_topics" (by simp [sentimentKeys])
    have s1 : lastGet SentimentAnalyzer.empty_result "sentiment_label" =
        some (PyValue.str "neutral") := rfl
    have s2l : lastGet SentimentAnalyzer.empty_result "sentiment_score" =
        some (PyValue.float 0) := rfl
    have s3 : lastGet SentimentAnalyzer.empty_result "sentiment_emotions" =
        some (PyValue.list []) := rfl
    have s4 : lastGet SentimentAnalyzer.empty_result "sentiment_topics" =
        some (PyValue.list []) := rfl
    have msok : ∀ d fb : PyDict, mergeStage (.ok d) fb = d := fun _ _ => rfl
    refine ⟨?_, ?_, ?_, ?_⟩ <;>
      simp [EnrichmentPipeline.enrich_record, allFlags, dictPop, msok,
        dictGet_dictSet, dictGet_dictUpdate, dictGet_dictRemove,
        e1, e2, e3, e4, t1, t2, t3, t4, g1, g2, g3, g4, m1, m2, m3, m4,
        s1, s2l, s3, s4, Option.or]
  · intro k hk
    have hrec : EqExcept sentimentKeys (normalize_record raw cfg)
        (normalize_record raw cfg) := eqExcept_refl _ _
    have hb1 := eqExcept_dictSet hrec "enriched_at" now now (Or.inr rfl)
    have hb2 := eqExcept_dictSet hb1 "enrichment_version"
      (.str "1.0.0") (.str "1.0.0") (Or.inr rfl)
    have hb3 := eqExcept_dictSet hb2 "date" today today (Or.inr rfl)
    have hu1 := eqExcept_dictUpdate hb3 hs2
    have hu2 := eqExcept_dictUpdate hu1
      (stageCompat_refl sentimentKeys
        (mergeStage entity EnrichmentPipeline.entity_fallback))
    have hu3 := eqExcept_dictUpdate hu2
      (stageCompat_refl sentimentKeys
        (mergeStage topic EnrichmentPipeline.topic_fallback))
    have hu4 := eqExcept_dictUpdate hu3
      (stageCompat_refl sentimentKeys
        (mergeStage engagement EnrichmentPipeline.engagement_fallback))
    have hu5 := eqExcept_dictUpdate hu4
      (stageCompat_refl sentimentKeys
        (mergeStage moderation EnrichmentPipeline.moderation_fallback))
    have hv1 := congrArg (fun o => o.getD (PyValue.str ""))
      (eqExcept_dictGet hu5 (show ("text" : String) ∉ sentimentKeys by
        simp [sentimentKeys]))
    have hr1 := eqExcept_dictSet (eqExcept_dictRemove hu5 "text")
      "source_text" _ _ (Or.inr hv1)
    have hv2 := congrArg (fun o => o.getD (PyValue.str ""))
      (eqExcept_dictGet hr1 (show ("author" : String) ∉ sentimentKeys by
        simp [sentimentKeys]))
    have hr2 := eqExcept_dictSet (eqExcept_dictRemove hr1 "author")
      "source_author" _ _ (Or.inr hv2)
    have hv3 := congrArg (fun o => o.getD (PyValue.int 0))
      (eqExcept_dictGet hr2 (show ("retweets" : String) ∉ sentimentKeys by
        simp [sentimentKeys]))
    have hr3 := eqExcept_dictSet (eqExcept_dictRemove hr2 "retweets")
      "shares" _ _ (Or.inr hv3)
    have hv4 := congrArg (fun o => o.getD (PyValue.int 0))
      (eqExcept_dictGet hr3 (show ("replies" : String) ∉ sentimentKeys by
        simp [sentimentKeys]))
    have hr4 := eqExcept_dictSet (eqExcept_dictRemove hr3 "replies")
      "comments" _ _ (Or.inr hv4)
    exact eqExcept_dictGet hr4 hk

/-- Witness for `c1_sentiment_stage_failure`: a concrete normalized record,
a raising sentiment collaborator, the other four stages raising (so their
fallback bundles merge), and a well-shaped successful sentiment bundle for
comparison. -/
theorem c1_sentiment_stage_failure_witness :
    dictGet
        (EnrichmentPipeline.enrich_record allFlags
          (PyValue.datetime 2024 1 1 0 0 0) (PyValue.date 2024 1 1)
          (normalize_record
            [("tweet_id", .int 42), ("source_text", .str "Great launch!")]
            ⟨"x_tweets", "tweet_id", "tweet_text", Option.none, Option.none,
              Option.none, Option.none, Option.none, Option.none,
              Option.none, Option.none, Option.none⟩)
          (.ok (SentimentAnalyzer.analyze (fun _ => .error "timeout")
            (recordTextStr (normalize_record
              [("tweet_id", .int 42), ("source_text", .str "Great launch!")]
              ⟨"x_tweets", "tweet_id", "tweet_text", Option.none,
                Option.none, Option.none, Option.none, Option.none,
                Option.none, Option.none, Option.none, Option.none⟩))).1)
          (.error "down") (.error "down") (.error "down") (.error "down"))
        "sentiment_label" = some (PyValue.str "neutral") :=
  (c1_sentiment_stage_failure
    [("tweet_id", .int 42), ("source_text", .str "Great launch!")]
    ⟨"x_tweets", "tweet_id", "tweet_text", Option.none, Option.none,
      Option.none, Option.none, Option.none, Option.none, Option.none,
      Option.none, Option.none⟩
    (PyValue.datetime 2024 1 1 0 0 0) (PyValue.date 2024 1 1) "timeout"
    (.error "down") (.error "down") (.error "down") (.error "down")
    [("sentiment_label", .str "positive"),
     ("sentiment_score", .float (9 / 10)),
     ("sentiment_emotions", .list [.str "joy"]),
     ("sentiment_topics", .list [.str "launch"])]
    (List.Forall₂.cons ⟨rfl, Or.inl (by simp [sentimentKeys])⟩
      (List.Forall₂.cons ⟨rfl, Or.inl (by simp [sentimentKeys])⟩
        (List.Forall₂.cons ⟨rfl, Or.inl (by simp [sentimentKeys])⟩
          (List.Forall₂.cons ⟨rfl, Or.inl (by simp [sentimentKeys])⟩
            List.Forall₂.nil))))
    (by intro k hk; fin_cases hk <;> rfl)
    (by intro k hk; fin_cases hk <;> rfl)
    (by intro k hk; fin_cases hk <;> rfl)
    (by intro k hk; fin_cases hk <;> rfl)).1.1
